import Mathlib

/-!
Verification of the UIUC transit assistant core, shallowly embedded from the
TypeScript source: the transit proxy cache and rate limiter
(supabase/functions/transit-departures and transit-planner), the trip-planner
fallback, the next-event resolver (src/services/tripPlanning.ts), the
notification scheduler (cron schedule-notify), and the push fanout
(supabase/functions/fanout-push).

Conventions used throughout:
- JavaScript `Date.now()` millisecond timestamps are modelled as `Nat` in the
  proxy (where the source only subtracts recent timestamps from `now`) and as
  `Int` in the scheduler and planner fallback (where differences can be
  negative).
- ISO timestamp strings are modelled by their epoch-millisecond value.
- GeoJSON coordinates (degrees) are modelled as integers scaled by 10^4
  (40.1096 becomes 401096); the source never does arithmetic on them, it only
  copies them between records.
- JavaScript `Map` objects are modelled as association lists, JS arrays as
  lists, and the two upstream-HTTP fetches as explicit parameters describing
  the response the fetch would produce.
-/

namespace TransitProxy

/-- Cache TTL of the transit-departures proxy, in milliseconds (60 s). -/
def DEPARTURES_CACHE_TTL : Nat := 60 * 1000

/-- Cache TTL of the transit-planner proxy, in milliseconds (75 s). -/
def PLANNER_CACHE_TTL : Nat := 75 * 1000

/-- Rate limit window in milliseconds; identical in both proxies. -/
def RATE_LIMIT_WINDOW : Nat := 60 * 1000

/-- Maximum upstream requests per window per key; identical in both proxies. -/
def MAX_REQUESTS_PER_WINDOW : Nat := 1

/-- One entry of the in-memory cache `Map`: `{ data, timestamp }`. -/
structure CacheEntry (α : Type) where
  data : α
  timestamp : Nat
deriving DecidableEq

/-- The module-level mutable state of a proxy: the response cache and the
rate-limit tracker, both keyed by resource-key strings. -/
structure ProxyState (α : Type) where
  cache : List (String × CacheEntry α)
  rateLimitTracker : List (String × List Nat)
deriving DecidableEq

/-- Update of one key of an association list, modelling `Map.set`. -/
def putKey {α : Type} (k : String) (v : α) : List (String × α) → List (String × α)
  | [] => [(k, v)]
  | (k2, v2) :: rest => if k2 == k then (k2, v) :: rest else (k2, v2) :: putKey k v rest

/-- Outcome of the shared rate-limit-then-cache prologue that both proxies run
before contacting the upstream API. -/
inductive CheckResult (α : Type) where
  | rateLimited (retryAfter : Nat)
  | cacheHit (data : α) (cacheAge : Nat)
  | proceed (validRequests : List Nat)
deriving DecidableEq

/-- The `validRequests` array: the tracked request times for the key that
still fall inside the rate-limit window. -/
def validRequestsOf {α : Type} (rateKey : String) (now : Nat) (st : ProxyState α) : List Nat :=
  ((st.rateLimitTracker.lookup rateKey).getD []).filter
    (fun time => now - time < RATE_LIMIT_WINDOW)

/-- The rate-limit check followed by the cache check, exactly in the order of
the source (`serve` first filters the tracker and rejects with 429, and only
then consults the cache).  `retryAfter` is
`Math.ceil((validRequests[0] + RATE_LIMIT_WINDOW - now) / 1000)` and
`cacheAge` is `Math.round((now - cached.timestamp) / 1000)`. -/
def proxyCheck {α : Type} (ttl : Nat) (rateKey cacheKey : String) (now : Nat)
    (st : ProxyState α) : CheckResult α :=
  if MAX_REQUESTS_PER_WINDOW ≤ (validRequestsOf rateKey now st).length then
    CheckResult.rateLimited
      (((validRequestsOf rateKey now st).headD 0 + RATE_LIMIT_WINDOW - now + 999) / 1000)
  else
    match st.cache.lookup cacheKey with
    | some cached =>
      if now - cached.timestamp < ttl then
        CheckResult.cacheHit cached.data ((now - cached.timestamp + 500) / 1000)
      else CheckResult.proceed (validRequestsOf rateKey now st)
    | none => CheckResult.proceed (validRequestsOf rateKey now st)

/-- Result of the single upstream `fetch` of the departures proxy. -/
inductive Upstream (α : Type) where
  | ok (data : α)
  | err (status : Nat) (body : String)
deriving DecidableEq

/-- The HTTP response of the departures proxy, one constructor per exit path. -/
inductive DeparturesResponse (α : Type) where
  | missingStopId
  | rateLimited (retryAfter : Nat)
  | cacheHit (data : α) (cacheAge : Nat)
  | configError
  | upstreamError (status : Nat) (details : String)
  | fetched (data : α)
deriving DecidableEq

/-- Whether a departures response is the cache-tagged (`cached: true`) reply. -/
def DeparturesResponse.isCacheHit {α : Type} : DeparturesResponse α → Bool
  | .cacheHit _ _ => true
  | _ => false

/-- Full observable outcome of one request to the departures proxy:
the HTTP response, the proxy state afterwards, and whether the upstream
CUMTD fetch was performed. -/
structure ServeOutcome (α : Type) where
  response : DeparturesResponse α
  state : ProxyState α
  upstreamCalled : Bool
deriving DecidableEq

/-- One request to the transit-departures proxy (`serve` in
supabase/functions/transit-departures/index.ts): parameter check, rate-limit
check, cache check, API-key check, upstream fetch; the tracker and the cache
are only written on a successful upstream fetch. -/
def serveDepartures {α : Type} (now : Nat) (stopId : Option String) (hasKey : Bool)
    (upstream : Upstream α) (st : ProxyState α) : ServeOutcome α :=
  match stopId with
  | none => ⟨DeparturesResponse.missingStopId, st, false⟩
  | some sid =>
    let key := ("departures:") ++ sid
    match proxyCheck DEPARTURES_CACHE_TTL key key now st with
    | .rateLimited r => ⟨DeparturesResponse.rateLimited r, st, false⟩
    | .cacheHit d a => ⟨DeparturesResponse.cacheHit d a, st, false⟩
    | .proceed validRequests =>
      if hasKey then
        match upstream with
        | .err s b => ⟨DeparturesResponse.upstreamError s b, st, true⟩
        | .ok d =>
          ⟨DeparturesResponse.fetched d,
           { cache := putKey key ⟨d, now⟩ st.cache,
             rateLimitTracker := putKey key (validRequests ++ [now]) st.rateLimitTracker },
           true⟩
      else ⟨DeparturesResponse.configError, st, false⟩

end TransitProxy

namespace Planner

open TransitProxy

/-- A stop endpoint of a normalized trip leg (`from`/`to` in the source; `from`
is a Lean keyword, hence `fromStop`/`toStop`). -/
structure Endpoint where
  name : String
  latitude : Int
  longitude : Int
deriving DecidableEq

/-- One leg of a normalized trip.  Upstream-normalized legs have no headsign;
fallback legs do, so the field is optional here. -/
structure Leg where
  startTime : Int
  endTime : Int
  mode : String
  routeId : Option String
  routeName : Option String
  headsign : Option String
  fromStop : Endpoint
  toStop : Endpoint
deriving DecidableEq

/-- A `NormalizedTrip` of the transit-planner proxy. -/
structure NormalizedTrip where
  tripId : String
  startTime : Int
  endTime : Int
  durationMinutes : Int
  legs : List Leg
deriving DecidableEq

/-- Raw upstream leg endpoint (`lat`/`lon`). -/
structure RawEndpoint where
  name : String
  lat : Int
  lon : Int
deriving DecidableEq

/-- Raw upstream trip leg, snake_case fields as returned by the CUMTD API. -/
structure RawLeg where
  start_time : Int
  end_time : Int
  mode : String
  route_id : Option String
  route_name : Option String
  fromStop : RawEndpoint
  toStop : RawEndpoint
deriving DecidableEq

/-- Raw upstream trip. -/
structure RawTrip where
  trip_id : String
  start_time : Int
  end_time : Int
  duration : Int
  legs : List RawLeg
deriving DecidableEq

/-- Normalization of one upstream trip (the `.map` over `data.trips`). -/
def normalizeTrip (t : RawTrip) : NormalizedTrip :=
  { tripId := t.trip_id,
    startTime := t.start_time,
    endTime := t.end_time,
    durationMinutes := t.duration,
    legs := t.legs.map (fun leg =>
      { startTime := leg.start_time,
        endTime := leg.end_time,
        mode := leg.mode,
        routeId := leg.route_id,
        routeName := leg.route_name,
        headsign := none,
        fromStop := { name := leg.fromStop.name, latitude := leg.fromStop.lat,
                      longitude := leg.fromStop.lon },
        toStop := { name := leg.toStop.name, latitude := leg.toStop.lat,
                    longitude := leg.toStop.lon } }) }

/-- The request object built by the planner `serve` handler.  The TypeScript
interface declares camelCase `arriveBy`/`departAt`, but both the GET path and
the cache key use snake_case `arrive_by`/`depart_at` on the same dynamic
object; both spellings are therefore carried here.  The camelCase values are
timestamps (parsed with `new Date`), modelled as epoch milliseconds. -/
structure TripPlanRequest where
  origin : String
  destination : String
  arriveBy : Option Int
  departAt : Option Int
  arrive_by : Option String
  depart_at : Option String
deriving DecidableEq

/-- One departure row as used by the fallback (`route_id`, `route_short_name`,
`headsign`); the empty string models a missing/falsy JSON field. -/
structure Departure where
  route_id : String
  route_short_name : String
  headsign : String
deriving DecidableEq

/-- Body of a departures-by-stop upstream response. -/
structure DeparturesData where
  departures : List Departure
deriving DecidableEq

/-- Order-preserving deduplication, modelling iteration over a JS `Set`
built by insertion. -/
def dedupAux : List String → List String → List String
  | [], _ => []
  | x :: xs, seen => if seen.contains x then dedupAux xs seen else x :: dedupAux xs (x :: seen)

/-- First-occurrence deduplication of a string list. -/
def dedupKeepFirst (l : List String) : List String := dedupAux l []

/-- `new Set(data.departures?.map(d => d.route_id).filter(Boolean))` as an
insertion-ordered list of distinct route ids. -/
def routeIds (d : DeparturesData) : List String :=
  dedupKeepFirst ((d.departures.map (fun dep => dep.route_id)).filter (fun r => r != ""))

/-- The `busInfo` record assembled in each fallback branch. -/
structure BusInfo where
  routeId : String
  routeName : String
  headsign : String
deriving DecidableEq

/-- Selection of real bus information from the optional extra departures
fetch, with the JS `||` fallbacks onto the branch defaults. -/
def pickBusInfo (busResp : Option DeparturesData) (fallbackRoute : String) : BusInfo :=
  let dflt : BusInfo :=
    { routeId := fallbackRoute, routeName := ("Route ") ++ fallbackRoute, headsign := ("Campus") }
  match busResp with
  | none => dflt
  | some d =>
    match d.departures with
    | [] => dflt
    | nd :: _ =>
      { routeId := if nd.route_id == "" then fallbackRoute else nd.route_id,
        routeName := if nd.route_short_name == "" then ("Route ") ++ fallbackRoute
                     else nd.route_short_name,
        headsign := if nd.headsign == "" then ("Campus") else nd.headsign }

/-- The single synthesized fallback bus trip. -/
def mkFallbackTrip (req : TripPlanRequest) (tripId : String) (dep arr : Int)
    (b : BusInfo) : NormalizedTrip :=
  { tripId := tripId,
    startTime := dep,
    endTime := arr,
    durationMinutes := 15,
    legs := [{ startTime := dep, endTime := arr, mode := ("bus"),
               routeId := some b.routeId, routeName := some b.routeName,
               headsign := some b.headsign,
               fromStop := { name := req.origin, latitude := 401096, longitude := -882272 },
               toStop := { name := req.destination, latitude := 401096, longitude := -882272 } }] }

/-- Result of `attemptFallbackTripPlanning`: the two 500-error exits when a
departures fetch fails, or the success payload
`{ success: true, trips, fallback: true }` served with `max-age` seconds of
HTTP caching (30, shorter than the normal 75). -/
inductive FallbackResult where
  | errorOrigin
  | errorDest
  | ok (trips : List NormalizedTrip) (fallbackFlag : Bool) (maxAge : Nat)
deriving DecidableEq

/-- `attemptFallbackTripPlanning`: fetch departures at the origin and the
destination stop, intersect the route-id sets, and synthesize a single bus
leg departing 15 minutes before the requested arrival time (defaulting the
arrival to `now` when `arriveBy` is absent).  `originResp`/`destResp`/`busResp`
describe the bodies the three fetches would return (`none` = non-ok). -/
def attemptFallback (req : TripPlanRequest) (now : Int)
    (originResp destResp busResp : Option DeparturesData) : FallbackResult :=
  match originResp with
  | none => FallbackResult.errorOrigin
  | some originData =>
    match destResp with
    | none => FallbackResult.errorDest
    | some destData =>
      let originRoutes := routeIds originData
      let destRoutes := routeIds destData
      let commonRoutes := originRoutes.filter (fun r => destRoutes.contains r)
      let arriveByTime : Int := req.arriveBy.getD now
      let departureTime : Int := arriveByTime - 15 * 60 * 1000
      match commonRoutes with
      | routeId :: _ =>
        match originData.departures.find? (fun d => d.route_id == routeId) with
        | none => FallbackResult.ok [] true 30
        | some _ =>
          let busInfo := pickBusInfo busResp routeId
          FallbackResult.ok
            [mkFallbackTrip req (("fallback-") ++ busInfo.routeId ++ ("-") ++ toString now)
              departureTime arriveByTime busInfo] true 30
      | [] =>
        let busInfo := pickBusInfo busResp ("1")
        FallbackResult.ok
          [mkFallbackTrip req (("fallback-bus-") ++ toString now)
            departureTime arriveByTime busInfo] true 30

/-- The success payload cached and served by the planner proxy. -/
structure PlannerData where
  trips : List NormalizedTrip
deriving DecidableEq

/-- The HTTP response of the transit-planner proxy. -/
inductive PlannerResponse where
  | configError
  | missingParams
  | rateLimited (retryAfter : Nat)
  | cacheHit (data : PlannerData) (cacheAge : Nat)
  | success (data : PlannerData)
  | fallbackSuccess (trips : List NormalizedTrip) (maxAge : Nat)
  | fallbackError
deriving DecidableEq

/-- Conversion of a fallback result to the proxy response. -/
def fallbackResponse : FallbackResult → PlannerResponse
  | .errorOrigin => PlannerResponse.fallbackError
  | .errorDest => PlannerResponse.fallbackError
  | .ok trips _ maxAge => PlannerResponse.fallbackSuccess trips maxAge

/-- Observable outcome of one planner request: response, state afterwards,
whether the upstream trip-planning fetch ran, and whether
`attemptFallbackTripPlanning` was invoked. -/
structure PlannerServeOutcome where
  response : PlannerResponse
  state : ProxyState PlannerData
  upstreamCalled : Bool
  fallbackInvoked : Bool
deriving DecidableEq

/-- One request to the transit-planner proxy (`serve` in
supabase/functions/transit-planner/index.ts): API-key check, parameter
validation, rate-limit check, cache check, upstream trip-planning fetch.  A
non-ok upstream response triggers `attemptFallbackTripPlanning`; an ok
response — even with zero itineraries — is normalized, cached and returned as
success.  The tracker and cache are written only on the ok path. -/
def servePlanner (now : Nat) (hasKey : Bool) (req : TripPlanRequest)
    (upstream : Upstream (List RawTrip))
    (originResp destResp busResp : Option DeparturesData)
    (st : ProxyState PlannerData) : PlannerServeOutcome :=
  if hasKey then
    if req.origin == "" || req.destination == "" then
      ⟨PlannerResponse.missingParams, st, false, false⟩
    else
      let rateKey := ("planner:") ++ req.origin ++ (":") ++ req.destination
      let cacheKey := rateKey ++ (":") ++ (req.arrive_by.getD (req.depart_at.getD ("now")))
      match proxyCheck PLANNER_CACHE_TTL rateKey cacheKey now st with
      | .rateLimited r => ⟨PlannerResponse.rateLimited r, st, false, false⟩
      | .cacheHit d a => ⟨PlannerResponse.cacheHit d a, st, false, false⟩
      | .proceed validRequests =>
        match upstream with
        | .err _ _ =>
          ⟨fallbackResponse (attemptFallback req (now : Int) originResp destResp busResp),
           st, true, true⟩
        | .ok rawTrips =>
          let data : PlannerData := { trips := rawTrips.map normalizeTrip }
          ⟨PlannerResponse.success data,
           { cache := putKey cacheKey ⟨data, now⟩ st.cache,
             rateLimitTracker := putKey rateKey (validRequests ++ [now]) st.rateLimitTracker },
           true, false⟩
  else ⟨PlannerResponse.configError, st, false, false⟩

end Planner

namespace Sched

/-- A `user_settings` row.  `home_point` and `destination_point` are GeoJSON
points whose `coordinates` array is `[longitude, latitude]`; quiet-hours
columns are `HH:MM` strings, modelled as minutes since midnight (string
comparison of zero-padded `HH:MM` agrees with numeric comparison of
minutes). -/
structure UserSettings where
  user_id : String
  home_point : Option (Int × Int)
  notify_lead_minutes : Int
  quiet_hours_start : Nat
  quiet_hours_end : Nat
  timezone : String
deriving DecidableEq

/-- An `events` row as read by the scheduler. -/
structure CalendarEvent where
  id : String
  user_id : String
  title : String
  start_time : Int
  destination_point : Option (Int × Int)
deriving DecidableEq

/-- The `bestTrip` payload stored in a trip plan (`planned_trip`); the
scheduler only reads its `startTime`/`endTime`. -/
structure PlannerTrip where
  startTime : Int
  endTime : Int
deriving DecidableEq

/-- A `trip_plans` row.  `origin`/`destination` are the
`"latitude,longitude"` strings the scheduler builds, modelled as the
(latitude, longitude) pair. -/
structure TripPlan where
  id : Nat
  user_id : String
  event_id : String
  origin : Int × Int
  destination : Int × Int
  planned_trip : PlannerTrip
  departure_time : Int
  arrival_time : Int
  created_at : Int
deriving DecidableEq

/-- The closed set of notification states used by the pipeline. -/
inductive NotificationStatus where
  | pending
  | sent
  | failed
deriving DecidableEq

/-- A `notifications` row. -/
structure Notification where
  id : Nat
  user_id : String
  trip_plan_id : Nat
  event_id : String
  title : String
  body : String
  ntype : String
  status : NotificationStatus
  scheduled_for : Int
  sent_at : Option Int
deriving DecidableEq

/-- A `push_tokens` row. -/
structure PushToken where
  user_id : String
  token : String
deriving DecidableEq

/-- The relational store shared by the scheduler and the fanout.  `next_id`
models the generation of fresh row ids on insert. -/
structure DB where
  user_settings : List UserSettings
  events : List CalendarEvent
  trip_plans : List TripPlan
  notifications : List Notification
  push_tokens : List PushToken
  next_id : Nat
deriving DecidableEq

/-- `isInQuietHours`: the current clock time, quiet-hours start and end as
minutes since midnight.  When the window wraps past midnight
(`startTime > endTime`) membership is `cur >= start || cur <= end`, otherwise
`cur >= start && cur <= end`. -/
def isInQuietHours (currentTime startTime endTime : Nat) : Bool :=
  if endTime < startTime then
    decide (startTime ≤ currentTime) || decide (currentTime ≤ endTime)
  else
    decide (startTime ≤ currentTime) && decide (currentTime ≤ endTime)

/-- The events query of one scheduler tick: the user's events with
`lookAheadStart <= start_time <= lookAheadEnd`, where the look-ahead window is
`[now + 30 min, now + 60 min]`. -/
def eventsInWindow (db : DB) (u : String) (now : Int) : List CalendarEvent :=
  db.events.filter (fun e =>
    e.user_id == u && decide (now + 30 * 60 * 1000 ≤ e.start_time)
      && decide (e.start_time ≤ now + 60 * 60 * 1000))

/-- First row of the events query ordered by `start_time` ascending
(minimum start time, first row on ties). -/
def minByStart : List CalendarEvent → Option CalendarEvent
  | [] => none
  | e :: es =>
    match minByStart es with
    | none => some e
    | some m => some (if decide (e.start_time ≤ m.start_time) then e else m)

/-- `events[0]` of the scheduler's look-ahead query. -/
def nextEventInWindow (db : DB) (u : String) (now : Int) : Option CalendarEvent :=
  minByStart (eventsInWindow db u now)

/-- The recency query for an existing plan: plans of the (user, event) pair
with `created_at >= now - 5 min`. -/
def freshPlans (db : DB) (u eid : String) (now : Int) : List TripPlan :=
  db.trip_plans.filter (fun p =>
    p.user_id == u && p.event_id == eid && decide (now - 5 * 60 * 1000 ≤ p.created_at))

/-- First row ordered by `created_at` descending (`limit 1 single`). -/
def maxByCreated : List TripPlan → Option TripPlan
  | [] => none
  | p :: ps =>
    match maxByCreated ps with
    | none => some p
    | some m => some (if decide (m.created_at ≤ p.created_at) then p else m)

/-- The existing-plan lookup of one tick. -/
def findExistingPlan (db : DB) (u eid : String) (now : Int) : Option TripPlan :=
  maxByCreated (freshPlans db u eid now)

/-- The request body `createTripPlan` POSTs to the transit-planner. -/
structure PlannerCallRequest where
  origin : Int × Int
  destination : Int × Int
  arrive_by : Int
deriving DecidableEq

/-- Result of the transit-planner call as seen by `createTripPlan`:
an HTTP error, or a JSON body with `success` and `trips`. -/
inductive PlannerCallResult where
  | httpError
  | resp (success : Bool) (trips : List PlannerTrip)
deriving DecidableEq

/-- Default UIUC coordinates `'40.1096,-88.2272'`. -/
def defaultCoord : Int × Int := (401096, -882272)

/-- Trip origin: home point as `"coordinates[1],coordinates[0]"`, else the
UIUC default. -/
def originOf (s : UserSettings) : Int × Int :=
  match s.home_point with
  | some (lon, lat) => (lat, lon)
  | none => defaultCoord

/-- Trip destination: the event's destination point, else the UIUC default. -/
def destinationOf (e : CalendarEvent) : Int × Int :=
  match e.destination_point with
  | some (lon, lat) => (lat, lon)
  | none => defaultCoord

/-- The row `createTripPlan` inserts for the best trip. -/
def newPlanRow (db : DB) (s : UserSettings) (e : CalendarEvent)
    (bestTrip : PlannerTrip) (now : Int) : TripPlan :=
  { id := db.next_id,
    user_id := s.user_id,
    event_id := e.id,
    origin := originOf s,
    destination := destinationOf e,
    planned_trip := bestTrip,
    departure_time := bestTrip.startTime,
    arrival_time := bestTrip.endTime,
    created_at := now }

/-- `createTripPlan`: call the transit-planner; on HTTP failure, a
non-success body or zero trips return null, otherwise insert and return a
plan row built from `trips[0]`. -/
def createTripPlan (planner : PlannerCallRequest → PlannerCallResult) (now : Int)
    (db : DB) (s : UserSettings) (e : CalendarEvent) : Option TripPlan × DB :=
  match planner { origin := originOf s, destination := destinationOf e,
                  arrive_by := e.start_time } with
  | .httpError => (none, db)
  | .resp success trips =>
    if success then
      match trips with
      | [] => (none, db)
      | bestTrip :: _ =>
        let plan := newPlanRow db s e bestTrip now
        (some plan, { db with trip_plans := db.trip_plans ++ [plan], next_id := db.next_id + 1 })
    else (none, db)

/-- `updateTripPlanIfNeeded` returns the existing plan unchanged (delay
detection is an unimplemented TODO in the source). -/
def updateTripPlanIfNeeded (_s : UserSettings) (_e : CalendarEvent)
    (existingPlan : TripPlan) : Option TripPlan :=
  some existingPlan

/-- `shouldSendNotification`: due iff `now` is within ±2 minutes of
`departure_time - notify_lead_minutes`. -/
def shouldSendNotification (s : UserSettings) (tripPlan : TripPlan) (now : Int) : Bool :=
  let leadTime := s.notify_lead_minutes * 60 * 1000
  let notificationTime := tripPlan.departure_time - leadTime
  let timeUntilNotification := notificationTime - now
  decide (timeUntilNotification ≤ 2 * 60 * 1000)
    && decide (-(2 * 60 * 1000) ≤ timeUntilNotification)

/-- The notification row `enqueueNotification` inserts; the body's minute
count is `Math.round((departure_time - Date.now()) / 60000)`. -/
def newNotificationRow (db : DB) (userId : String) (tripPlan : TripPlan)
    (e : CalendarEvent) (now : Int) : Notification :=
  { id := db.next_id,
    user_id := userId,
    trip_plan_id := tripPlan.id,
    event_id := e.id,
    title := ("Time to leave for ") ++ e.title,
    body := ("Your bus departs in ")
      ++ toString ((tripPlan.departure_time - now + 30000).fdiv 60000) ++ (" minutes"),
    ntype := ("departure_reminder"),
    status := NotificationStatus.pending,
    scheduled_for := now,
    sent_at := none }

/-- `enqueueNotification`: returns without inserting when the user has no
push tokens; otherwise inserts a pending notification and triggers
fanout-push (the returned flag). -/
def enqueueNotification (db : DB) (userId : String) (tripPlan : TripPlan)
    (e : CalendarEvent) (now : Int) : DB × Bool :=
  match db.push_tokens.filter (fun t => t.user_id == userId) with
  | [] => (db, false)
  | _ :: _ =>
    ({ db with
        notifications := db.notifications ++ [newNotificationRow db userId tripPlan e now],
        next_id := db.next_id + 1 }, true)

/-- How the per-user loop body exits, used for the aggregate counters. -/
inductive UserOutcome where
  | skippedQuiet
  | noEvents
  | doneNewPlan (created : Bool) (notified : Bool)
  | doneExisting (notified : Bool)
deriving DecidableEq

/-- Result of processing one user in a tick. -/
structure ProcessResult where
  db : DB
  outcome : UserOutcome
  fanoutInvoked : Bool
deriving DecidableEq

/-- The per-user body of one scheduler tick (`serve` in the cron
schedule-notify function).  `now` is the epoch-millisecond clock and
`nowClock` the server-local clock time in minutes (the `toTimeString`
rendering of the same instant).  In the existing-plan branch the source
notifies only when `updatedPlan !== existingPlan`; `updateTripPlanIfNeeded`
returns the very same object, so that guard is never taken. -/
def processUser (planner : PlannerCallRequest → PlannerCallResult) (now : Int)
    (nowClock : Nat) (db : DB) (s : UserSettings) : ProcessResult :=
  if isInQuietHours nowClock s.quiet_hours_start s.quiet_hours_end then
    ⟨db, UserOutcome.skippedQuiet, false⟩
  else
    match nextEventInWindow db s.user_id now with
    | none => ⟨db, UserOutcome.noEvents, false⟩
    | some nextEvent =>
      match findExistingPlan db s.user_id nextEvent.id now with
      | none =>
        match createTripPlan planner now db s nextEvent with
        | (none, db1) => ⟨db1, UserOutcome.doneNewPlan false false, false⟩
        | (some newPlan, db1) =>
          if shouldSendNotification s newPlan now then
            match enqueueNotification db1 s.user_id newPlan nextEvent now with
            | (db2, invoked) => ⟨db2, UserOutcome.doneNewPlan true true, invoked⟩
          else ⟨db1, UserOutcome.doneNewPlan true false, false⟩
      | some existingPlan =>
        match updateTripPlanIfNeeded s nextEvent existingPlan with
        | none => ⟨db, UserOutcome.doneExisting false, false⟩
        | some updatedPlan =>
          if updatedPlan ≠ existingPlan then
            if shouldSendNotification s updatedPlan now then
              match enqueueNotification db s.user_id updatedPlan nextEvent now with
              | (db2, invoked) => ⟨db2, UserOutcome.doneExisting true, invoked⟩
            else ⟨db, UserOutcome.doneExisting false, false⟩
          else ⟨db, UserOutcome.doneExisting false, false⟩

/-- The user loop with the `processed`/`notifications` counters. -/
def tickLoop (planner : PlannerCallRequest → PlannerCallResult) (now : Int)
    (nowClock : Nat) : List UserSettings → DB → Nat → Nat → DB × Nat × Nat
  | [], db, p, n => (db, p, n)
  | s :: rest, db, p, n =>
    let r := processUser planner now nowClock db s
    let p2 := match r.outcome with
      | .skippedQuiet => p
      | .noEvents => p
      | _ => p + 1
    let n2 := match r.outcome with
      | .doneNewPlan _ true => n + 1
      | .doneExisting true => n + 1
      | _ => n
    tickLoop planner now nowClock rest r.db p2 n2

/-- One full scheduler tick over every user with notification settings. -/
def tick (planner : PlannerCallRequest → PlannerCallResult) (now : Int)
    (nowClock : Nat) (db : DB) : DB × Nat × Nat :=
  tickLoop planner now nowClock db.user_settings db 0 0

end Sched

namespace Fanout

open Sched

/-- Stable insertion of a notification into a list sorted by `scheduled_for`
ascending. -/
def insertBySched (x : Notification) : List Notification → List Notification
  | [] => [x]
  | y :: ys =>
    if decide (y.scheduled_for < x.scheduled_for) then y :: insertBySched x ys
    else x :: y :: ys

/-- Stable sort by `scheduled_for` ascending (`order by scheduled_for`). -/
def sortBySched : List Notification → List Notification
  | [] => []
  | x :: xs => insertBySched x (sortBySched xs)

/-- The pending-notifications query of one fanout run: rows with
`status = 'pending'` and `scheduled_for <= now`, oldest first, capped at a
batch of 50. -/
def selectBatch (db : DB) (now : Int) : List Notification :=
  (sortBySched (db.notifications.filter (fun n =>
    decide (n.status = NotificationStatus.pending) && decide (n.scheduled_for ≤ now)))).take 50

/-- The shared body of `markNotificationSent`/`markNotificationFailed`: the
`update(...).eq('id', notificationId)` call, setting the status and stamping
`sent_at` on every row with the given id. -/
def markStatus (st : NotificationStatus) (l : List Notification) (nid : Nat)
    (now : Int) : List Notification :=
  l.map (fun n => if n.id == nid then { n with status := st, sent_at := some now } else n)

/-- `markNotificationSent`: update the row with the given id to `sent` and
stamp `sent_at`. -/
def markNotificationSent (l : List Notification) (nid : Nat) (now : Int) : List Notification :=
  markStatus NotificationStatus.sent l nid now

/-- `markNotificationFailed`: update the row with the given id to `failed`
(the source stamps `sent_at` here as well). -/
def markNotificationFailed (l : List Notification) (nid : Nat) (now : Int) : List Notification :=
  markStatus NotificationStatus.failed l nid now

/-- Delivery of one notification of the batch.  `pushOk` abstracts the Expo
push call: whether the batch of messages built for this notification and
token list is delivered with no per-message error.  Zero registered tokens
mark the notification failed without calling the push service. -/
def fanoutStep (pushOk : Notification → List PushToken → Bool) (now : Int)
    (db : DB) (n : Notification) : DB :=
  match db.push_tokens.filter (fun t => t.user_id == n.user_id) with
  | [] => { db with notifications := markNotificationFailed db.notifications n.id now }
  | tk :: tks =>
    if pushOk n (tk :: tks) then
      { db with notifications := markNotificationSent db.notifications n.id now }
    else
      { db with notifications := markNotificationFailed db.notifications n.id now }

/-- The per-notification loop of one fanout run. -/
def fanoutLoop (pushOk : Notification → List PushToken → Bool) (now : Int) :
    List Notification → DB → DB
  | [], db => db
  | n :: rest, db => fanoutLoop pushOk now rest (fanoutStep pushOk now db n)

/-- One fanout-push run (`serve` in supabase/functions/fanout-push/index.ts):
query the due pending batch, then deliver notification by notification. -/
def fanoutRun (pushOk : Notification → List PushToken → Bool) (now : Int) (db : DB) : DB :=
  fanoutLoop pushOk now (selectBatch db now) db

end Fanout

namespace NextEvent

/-- One calendar event as `findNextEvent` sees it: the day-of-week (0 =
Sunday) and the offset-adjusted clock time (minutes since midnight) derived
from the stored start timestamp. -/
structure WeeklyEvent where
  id : String
  title : String
  eventDow : Nat
  eventMin : Nat
deriving DecidableEq

/-- The current instant: absolute day index (with `day % 7` its day of week,
0 = Sunday), clock time in minutes, and seconds past the minute. -/
structure NowTime where
  day : Nat
  minute : Nat
  second : Nat
deriving DecidableEq

/-- `now.getDay()`. -/
def NowTime.dow (n : NowTime) : Nat := n.day % 7

/-- The instant in seconds since the epoch of day 0. -/
def NowTime.seconds (n : NowTime) : Nat := n.day * 86400 + n.minute * 60 + n.second

/-- `daysUntilNext = (eventDay - currentDay + 7) % 7`, rolled to 7 when the
result is 0 and the event's clock time is at or before the current clock
time. -/
def daysUntilNext (e : WeeklyEvent) (now : NowTime) : Nat :=
  let d := (e.eventDow + 7 - now.dow) % 7
  if d == 0 && decide (e.eventMin ≤ now.minute) then 7 else d

/-- The candidate occurrence: today plus `daysUntilNext` days, at the event's
clock time with seconds and milliseconds zeroed (`setHours(h, m, 0, 0)`),
in seconds. -/
def nextOccurrenceSec (e : WeeklyEvent) (now : NowTime) : Nat :=
  (now.day + daysUntilNext e now) * 86400 + e.eventMin * 60

/-- Minimum-occurrence selection (sort by occurrence time, take the first;
ties keep the earlier list element, as a stable sort does). -/
def minByOcc : List (WeeklyEvent × Nat) → Option (WeeklyEvent × Nat)
  | [] => none
  | p :: ps =>
    match minByOcc ps with
    | none => some p
    | some m => some (if decide (p.2 ≤ m.2) then p else m)

/-- `TripPlanningService.findNextEvent`: map every event to its next
occurrence, pick the earliest; `none` for an empty list. -/
def findNextEvent (events : List WeeklyEvent) (now : NowTime) :
    Option (WeeklyEvent × Nat) :=
  minByOcc (events.map (fun e => (e, nextOccurrenceSec e now)))

end NextEvent

/-! ## Helper lemmas -/

/-- `minByOcc` of a non-empty list returns a member attaining the minimum
occurrence time. -/
lemma helper_minByOcc_spec (l : List (NextEvent.WeeklyEvent × Nat)) (h : l ≠ []) :
    ∃ p, NextEvent.minByOcc l = some p ∧ p ∈ l ∧ ∀ q ∈ l, p.2 ≤ q.2 := by
  induction l with
  | nil => exact absurd rfl h
  | cons p ps ih =>
    cases hm : NextEvent.minByOcc ps with
    | none =>
      have hnil : ps = [] := by
        cases ps with
        | nil => rfl
        | cons a as =>
          exfalso
          revert hm
          unfold NextEvent.minByOcc
          cases NextEvent.minByOcc as <;> simp
      subst hnil
      refine ⟨p, by simp [NextEvent.minByOcc], List.mem_cons_self _ _, ?_⟩
      intro q hq
      rcases List.mem_singleton.mp hq with rfl
      exact le_refl _
    | some m =>
      have hne : ps ≠ [] := by
        intro hcon
        rw [hcon] at hm
        simp [NextEvent.minByOcc] at hm
      obtain ⟨m2, hm2, hmem, hmin⟩ := ih hne
      rw [hm] at hm2
      have hm2e : m = m2 := Option.some.inj hm2
      subst hm2e
      by_cases hle : p.2 ≤ m.2
      · refine ⟨p, ?_, List.mem_cons_self _ _, ?_⟩
        · simp [NextEvent.minByOcc, hm, hle]
        · intro q hq
          rcases List.mem_cons.mp hq with rfl | hq2
          · exact le_refl _
          · exact le_trans hle (hmin q hq2)
      · refine ⟨m, ?_, List.mem_cons_of_mem _ hmem, ?_⟩
        · simp [NextEvent.minByOcc, hm, hle]
        · intro q hq
          rcases List.mem_cons.mp hq with rfl | hq2
          · exact le_of_not_le hle
          · exact hmin q hq2

/-- C8: the quiet-hours check implements wraparound membership: with
`start > end` a time is in quiet hours iff `time >= start` or `time <= end`,
otherwise iff `start <= time <= end`; with quiet hours 22:00–08:00 the checks
at 23:30 and 05:00 report in-quiet-hours and the check at 12:00 does not; and
the scheduler's per-user body skips a user (outcome `skippedQuiet`, database
untouched) exactly when the check reports in-quiet-hours. -/
theorem c8_quiet_hours_wraparound :
    (∀ cur qs qe : Nat, qe < qs →
      (Sched.isInQuietHours cur qs qe = true ↔ (qs ≤ cur ∨ cur ≤ qe))) ∧
    (∀ cur qs qe : Nat, qs ≤ qe →
      (Sched.isInQuietHours cur qs qe = true ↔ (qs ≤ cur ∧ cur ≤ qe))) ∧
    Sched.isInQuietHours 1410 1320 480 = true ∧
    Sched.isInQuietHours 300 1320 480 = true ∧
    Sched.isInQuietHours 720 1320 480 = false ∧
    (∀ (planner : Sched.PlannerCallRequest → Sched.PlannerCallResult) (now : Int)
        (nowClock : Nat) (db : Sched.DB) (s : Sched.UserSettings),
      ((Sched.processUser planner now nowClock db s).outcome = Sched.UserOutcome.skippedQuiet
          ∧ (Sched.processUser planner now nowClock db s).db = db) ↔
        Sched.isInQuietHours nowClock s.quiet_hours_start s.quiet_hours_end = true) := by
  refine ⟨?_, ?_, by decide, by decide, by decide, ?_⟩
  · intro cur qs qe h
    simp [Sched.isInQuietHours, h]
  · intro cur qs qe h
    have h2 : ¬ qe < qs := not_lt.mpr h
    simp [Sched.isInQuietHours, h2]
  · intro planner now nowClock db s
    cases h : Sched.isInQuietHours nowClock s.quiet_hours_start s.quiet_hours_end with
    | true => simp [Sched.processUser, h]
    | false =>
      simp only [Sched.processUser, h, Bool.false_eq_true, if_false, iff_false]
      intro hcontra
      rcases hcontra with ⟨hout, _⟩
      revert hout
      split
      · simp
      · split
        · split
          · simp
          · split
            · simp
            · simp
        · split
          · simp
          · split
            · split
              · simp
              · simp
            · simp

/-- C8 witness: the wraparound direction applied at quiet hours
22:00–08:00 and clock time 23:30. -/
theorem c8_witness : Sched.isInQuietHours 1410 1320 480 = true ↔ (1320 ≤ 1410 ∨ 1410 ≤ 480) :=
  c8_quiet_hours_wraparound.1 1410 1320 480 (by decide)

/-- C10: the quiet-hours decision, and with it the entire per-user scheduler
step, does not depend on the stored timezone field: two runs over settings
differing only in `timezone` produce identical results. -/
theorem c10_timezone_noninterference :
    ∀ (tz : String) (planner : Sched.PlannerCallRequest → Sched.PlannerCallResult)
      (now : Int) (nowClock : Nat) (db : Sched.DB) (s : Sched.UserSettings),
      Sched.processUser planner now nowClock db { s with timezone := tz } =
        Sched.processUser planner now nowClock db s := by
  intro tz planner now nowClock db s
  cases s
  rfl

/-- C7: for every event and every now (with well-formed clock components) the
occurrence computed by the resolver is strictly later than now and at most 7
days after now; over a non-empty list the minimum-datetime occurrence is
selected, and the resolver returns none on an empty list. -/
theorem c7_next_event_resolver :
    (∀ (e : NextEvent.WeeklyEvent) (now : NextEvent.NowTime),
        e.eventMin < 1440 → now.minute < 1440 → now.second < 60 →
        now.seconds < NextEvent.nextOccurrenceSec e now ∧
          NextEvent.nextOccurrenceSec e now ≤ now.seconds + 7 * 86400) ∧
    (∀ now : NextEvent.NowTime, NextEvent.findNextEvent [] now = none) ∧
    (∀ (events : List NextEvent.WeeklyEvent) (now : NextEvent.NowTime), events ≠ [] →
        ∃ p, NextEvent.findNextEvent events now = some p ∧ p.1 ∈ events ∧
          p.2 = NextEvent.nextOccurrenceSec p.1 now ∧
          ∀ e ∈ events, p.2 ≤ NextEvent.nextOccurrenceSec e now) := by
  refine ⟨?_, ?_, ?_⟩
  · intro e now hem hnm hns
    unfold NextEvent.nextOccurrenceSec NextEvent.daysUntilNext NextEvent.NowTime.seconds
      NextEvent.NowTime.dow
    by_cases hroll :
        ((e.eventDow + 7 - now.day % 7) % 7 == 0 && decide (e.eventMin ≤ now.minute)) = true
    · rw [if_pos hroll]
      simp only [beq_iff_eq, Bool.and_eq_true, decide_eq_true_eq] at hroll
      omega
    · rw [if_neg hroll]
      simp only [beq_iff_eq, Bool.and_eq_true, decide_eq_true_eq, not_and_or, not_le] at hroll
      omega
  · intro now
    simp [NextEvent.findNextEvent, NextEvent.minByOcc]
  · intro events now hne
    have hmapne : events.map (fun e => (e, NextEvent.nextOccurrenceSec e now)) ≠ [] := by
      simpa using hne
    obtain ⟨p, hp, hmem, hmin⟩ := helper_minByOcc_spec _ hmapne
    obtain ⟨e, hee, hpe⟩ := List.mem_map.mp hmem
    refine ⟨p, hp, ?_, ?_, ?_⟩
    · rw [← hpe]
      exact hee
    · rw [← hpe]
    · intro e2 he2
      exact hmin _ (List.mem_map_of_mem _ he2)

/-- C7 witness: the bounds applied to a Monday 09:00 event at a Wednesday
10:15:30 instant. -/
theorem c7_witness :
    (⟨("w"), ("Class"), 1, 540⟩ : NextEvent.WeeklyEvent).eventMin < 1440 ∧
      (615 : Nat) < 1440 ∧ (30 : Nat) < 60 ∧
      (⟨3, 615, 30⟩ : NextEvent.NowTime).seconds <
        NextEvent.nextOccurrenceSec ⟨("w"), ("Class"), 1, 540⟩ ⟨3, 615, 30⟩ ∧
      NextEvent.nextOccurrenceSec ⟨("w"), ("Class"), 1, 540⟩ ⟨3, 615, 30⟩ ≤
        (⟨3, 615, 30⟩ : NextEvent.NowTime).seconds + 7 * 86400 :=
  ⟨by decide, by decide, by decide,
    (c7_next_event_resolver.1 ⟨("w"), ("Class"), 1, 540⟩ ⟨3, 615, 30⟩
      (by decide) (by decide) (by decide)).1,
    (c7_next_event_resolver.1 ⟨("w"), ("Class"), 1, 540⟩ ⟨3, 615, 30⟩
      (by decide) (by decide) (by decide)).2⟩

/-- Any rate-limit rejection computed by the shared prologue carries a
`retryAfter` between 1 and 60 seconds, provided every tracked request time is
at or before `now`. -/
lemma helper_proxyCheck_rateLimited {α : Type} (ttl : Nat) (rk ck : String) (now : Nat)
    (st : TransitProxy.ProxyState α) (r : Nat)
    (hmono : ∀ t ∈ (st.rateLimitTracker.lookup rk).getD [], t ≤ now)
    (h : TransitProxy.proxyCheck ttl rk ck now st = TransitProxy.CheckResult.rateLimited r) :
    1 ≤ r ∧ r ≤ 60 := by
  unfold TransitProxy.proxyCheck at h
  by_cases hlen :
      TransitProxy.MAX_REQUESTS_PER_WINDOW ≤ (TransitProxy.validRequestsOf rk now st).length
  · rw [if_pos hlen] at h
    injection h with hr
    have hne : TransitProxy.validRequestsOf rk now st ≠ [] := by
      intro hc
      rw [hc] at hlen
      simp [TransitProxy.MAX_REQUESTS_PER_WINDOW] at hlen
    obtain ⟨t, ts, hts⟩ := List.exists_cons_of_ne_nil hne
    have hhead : (TransitProxy.validRequestsOf rk now st).headD 0 = t := by
      rw [hts]
      rfl
    have htmem : t ∈ TransitProxy.validRequestsOf rk now st := by
      rw [hts]
      exact List.mem_cons_self _ _
    unfold TransitProxy.validRequestsOf at htmem
    have hsplit := List.mem_filter.mp htmem
    have hwin : now - t < TransitProxy.RATE_LIMIT_WINDOW := by
      have := hsplit.2
      simpa using this
    have hle : t ≤ now := hmono t hsplit.1
    rw [hhead] at hr
    have hW : TransitProxy.RATE_LIMIT_WINDOW = 60000 := rfl
    rw [hW] at hr hwin
    constructor
    · rw [← hr]
      exact (Nat.le_div_iff_mul_le (by norm_num)).mpr (by omega)
    · rw [← hr]
      calc (t + 60000 - now + 999) / 1000 ≤ 60999 / 1000 :=
            Nat.div_le_div_right (by omega)
        _ = 60 := by norm_num
  · rw [if_neg hlen] at h
    split at h
    · split at h
      · simp at h
      · simp at h
    · simp at h

/-- With a fresh cache entry the prologue either rejects on the rate limit or
answers from the cache — it never proceeds to the upstream fetch. -/
lemma helper_proxyCheck_fresh {α : Type} (ttl : Nat) (rk ck : String) (now : Nat)
    (st : TransitProxy.ProxyState α) (e : TransitProxy.CacheEntry α)
    (h1 : st.cache.lookup ck = some e) (h2 : now - e.timestamp < ttl) :
    (∃ ra, TransitProxy.proxyCheck ttl rk ck now st = TransitProxy.CheckResult.rateLimited ra) ∨
      TransitProxy.proxyCheck ttl rk ck now st =
        TransitProxy.CheckResult.cacheHit e.data ((now - e.timestamp + 500) / 1000) := by
  unfold TransitProxy.proxyCheck
  by_cases hlen :
      TransitProxy.MAX_REQUESTS_PER_WINDOW ≤ (TransitProxy.validRequestsOf rk now st).length
  · exact Or.inl ⟨_, by rw [if_pos hlen]⟩
  · right
    rw [if_neg hlen]
    simp [h1, h2]

/-- With a fresh cache entry and no tracked request still inside the rate
window, the prologue answers from the cache. -/
lemma helper_proxyCheck_fresh_clear {α : Type} (ttl : Nat) (rk ck : String) (now : Nat)
    (st : TransitProxy.ProxyState α) (e : TransitProxy.CacheEntry α)
    (h1 : st.cache.lookup ck = some e) (h2 : now - e.timestamp < ttl)
    (h3 : ∀ t ∈ (st.rateLimitTracker.lookup rk).getD [],
      TransitProxy.RATE_LIMIT_WINDOW ≤ now - t) :
    TransitProxy.proxyCheck ttl rk ck now st =
      TransitProxy.CheckResult.cacheHit e.data ((now - e.timestamp + 500) / 1000) := by
  have hempty : TransitProxy.validRequestsOf rk now st = [] := by
    unfold TransitProxy.validRequestsOf
    apply List.filter_eq_nil_iff.mpr
    intro a ha
    simpa using not_lt.mpr (h3 a ha)
  unfold TransitProxy.proxyCheck
  rw [if_neg (by simp [hempty, TransitProxy.MAX_REQUESTS_PER_WINDOW])]
  simp [h1, h2]

/-- C5: a request rejected on the rate limit — in either proxy — carries a
`retryAfter` that is strictly positive and at most 60 seconds (the window
length), provided every tracked request timestamp is at or before `now` (as
holds for timestamps recorded by earlier requests under a monotone clock). -/
theorem c5_retry_after_bounds :
    (∀ (α : Type) (now : Nat) (sid : String) (hasKey : Bool) (up : TransitProxy.Upstream α)
        (st : TransitProxy.ProxyState α) (r : Nat),
      (∀ t ∈ (st.rateLimitTracker.lookup (("departures:") ++ sid)).getD [], t ≤ now) →
      (TransitProxy.serveDepartures now (some sid) hasKey up st).response =
        TransitProxy.DeparturesResponse.rateLimited r →
      1 ≤ r ∧ r ≤ 60) ∧
    (∀ (now : Nat) (req : Planner.TripPlanRequest)
        (up : TransitProxy.Upstream (List Planner.RawTrip))
        (o d b : Option Planner.DeparturesData)
        (st : TransitProxy.ProxyState Planner.PlannerData) (r : Nat),
      (∀ t ∈ (st.rateLimitTracker.lookup
          (("planner:") ++ req.origin ++ (":") ++ req.destination)).getD [], t ≤ now) →
      (Planner.servePlanner now true req up o d b st).response =
        Planner.PlannerResponse.rateLimited r →
      1 ≤ r ∧ r ≤ 60) := by
  constructor
  · intro α now sid hasKey up st r hmono hresp
    cases hpc : TransitProxy.proxyCheck TransitProxy.DEPARTURES_CACHE_TTL
        (("departures:") ++ sid) (("departures:") ++ sid) now st with
    | rateLimited r2 =>
      have hr : r2 = r := by
        simp [TransitProxy.serveDepartures, hpc] at hresp
        exact hresp
      exact hr ▸ helper_proxyCheck_rateLimited _ _ _ _ _ _ hmono hpc
    | cacheHit dd aa =>
      simp [TransitProxy.serveDepartures, hpc] at hresp
    | proceed v =>
      rcases up with dd | ⟨s2, b2⟩ <;> cases hasKey <;>
        simp [TransitProxy.serveDepartures, hpc] at hresp
  · intro now req up o d b st r hmono hresp
    by_cases hparams : (req.origin == "" || req.destination == "") = true
    · simp [Planner.servePlanner, hparams] at hresp
    · cases hpc : TransitProxy.proxyCheck TransitProxy.PLANNER_CACHE_TTL
          (("planner:") ++ req.origin ++ (":") ++ req.destination)
          (("planner:") ++ req.origin ++ (":") ++ req.destination ++ (":")
            ++ (req.arrive_by.getD (req.depart_at.getD ("now")))) now st with
      | rateLimited r2 =>
        have hr : r2 = r := by
          simp [Planner.servePlanner, hparams, hpc] at hresp
          exact hresp
        exact hr ▸ helper_proxyCheck_rateLimited _ _ _ _ _ _ hmono hpc
      | cacheHit dd aa =>
        simp [Planner.servePlanner, hparams, hpc] at hresp
      | proceed v =>
        rcases up with dd | ⟨s2, b2⟩
        · simp [Planner.servePlanner, hparams, hpc] at hresp
        · simp [Planner.servePlanner, hparams, hpc] at hresp
          cases hfb : Planner.attemptFallback req (now : Int) o d b <;>
            rw [hfb] at hresp <;> simp [Planner.fallbackResponse] at hresp

/-- The state of the departures proxy after one successful request for stop
`IT` at time 0. -/
def c5State1 : TransitProxy.ProxyState String :=
  (TransitProxy.serveDepartures 0 (some ("IT")) true (TransitProxy.Upstream.ok ("D"))
    ⟨[], []⟩).state

/-- C5 witness: a second request 30 s later is rejected with `retryAfter`
30, which the theorem bounds inside (0, 60]. -/
theorem c5_witness : 1 ≤ 30 ∧ 30 ≤ 60 :=
  c5_retry_after_bounds.1 String 30000 ("IT") true (TransitProxy.Upstream.ok ("D"))
    c5State1 30 (by decide) (by decide)

/-- C1 counterexample: after a successful departures request for stop `IT` at
time 0, a second request 30 s later — with the cached entry's age (30 s) below
the 60 s TTL — is rejected with HTTP 429 (`retryAfter` 30) by the rate-limit
check that precedes the cache check; it is not the cache-tagged reply the
claim requires. -/
theorem c1_counterexample :
    (TransitProxy.serveDepartures 30000 (some ("IT")) true (TransitProxy.Upstream.ok ("D"))
        c5State1).response = TransitProxy.DeparturesResponse.rateLimited 30 ∧
    (TransitProxy.serveDepartures 30000 (some ("IT")) true (TransitProxy.Upstream.ok ("D"))
        c5State1).response.isCacheHit = false ∧
    (TransitProxy.serveDepartures 30000 (some ("IT")) true (TransitProxy.Upstream.ok ("D"))
        c5State1).upstreamCalled = false := by
  decide

/-- C1 (amended): while a cached entry's age is below the resource's TTL the
upstream fetcher is never invoked again, but the cached reply is only served
when the rate-limit check — which runs first — passes.  For the departures
proxy the second request is answered either with 429 or from the cache; for
the planner proxy, whenever no tracked upstream call is still inside the 60 s
window (possible there because the 75 s TTL exceeds the window), the second
request returns the cached data tagged with its observed age. -/
theorem c1_cache_within_ttl :
    (∀ (α : Type) (now : Nat) (sid : String) (hasKey : Bool) (up : TransitProxy.Upstream α)
        (st : TransitProxy.ProxyState α) (e : TransitProxy.CacheEntry α),
      st.cache.lookup (("departures:") ++ sid) = some e →
      now - e.timestamp < TransitProxy.DEPARTURES_CACHE_TTL →
      (TransitProxy.serveDepartures now (some sid) hasKey up st).upstreamCalled = false ∧
        ((∃ ra, (TransitProxy.serveDepartures now (some sid) hasKey up st).response =
            TransitProxy.DeparturesResponse.rateLimited ra) ∨
          (TransitProxy.serveDepartures now (some sid) hasKey up st).response =
            TransitProxy.DeparturesResponse.cacheHit e.data ((now - e.timestamp + 500) / 1000))) ∧
    (∀ (now : Nat) (req : Planner.TripPlanRequest)
        (up : TransitProxy.Upstream (List Planner.RawTrip))
        (o d b : Option Planner.DeparturesData)
        (st : TransitProxy.ProxyState Planner.PlannerData)
        (e : TransitProxy.CacheEntry Planner.PlannerData),
      (req.origin == "") = false → (req.destination == "") = false →
      st.cache.lookup (("planner:") ++ req.origin ++ (":") ++ req.destination ++ (":")
        ++ (req.arrive_by.getD (req.depart_at.getD ("now")))) = some e →
      now - e.timestamp < TransitProxy.PLANNER_CACHE_TTL →
      (∀ t ∈ (st.rateLimitTracker.lookup
          (("planner:") ++ req.origin ++ (":") ++ req.destination)).getD [],
        TransitProxy.RATE_LIMIT_WINDOW ≤ now - t) →
      (Planner.servePlanner now true req up o d b st).upstreamCalled = false ∧
        (Planner.servePlanner now true req up o d b st).response =
          Planner.PlannerResponse.cacheHit e.data ((now - e.timestamp + 500) / 1000)) := by
  constructor
  · intro α now sid hasKey up st e h1 h2
    rcases helper_proxyCheck_fresh TransitProxy.DEPARTURES_CACHE_TTL
        (("departures:") ++ sid) (("departures:") ++ sid) now st e h1 h2 with ⟨ra, hra⟩ | hch
    · constructor
      · simp [TransitProxy.serveDepartures, hra]
      · exact Or.inl ⟨ra, by simp [TransitProxy.serveDepartures, hra]⟩
    · constructor
      · simp [TransitProxy.serveDepartures, hch]
      · exact Or.inr (by simp [TransitProxy.serveDepartures, hch])
  · intro now req up o d b st e ho hd h1 h2 h3
    have hparams : (req.origin == "" || req.destination == "") = false := by
      simp [ho, hd]
    have hch := helper_proxyCheck_fresh_clear TransitProxy.PLANNER_CACHE_TTL
        (("planner:") ++ req.origin ++ (":") ++ req.destination)
        (("planner:") ++ req.origin ++ (":") ++ req.destination ++ (":")
          ++ (req.arrive_by.getD (req.depart_at.getD ("now")))) now st e h1 h2 h3
    constructor
    · simp [Planner.servePlanner, hparams, hch]
    · simp [Planner.servePlanner, hparams, hch]

/-- A planner request for the concrete cache-hit scenario. -/
def c1wReq : Planner.TripPlanRequest :=
  { origin := "A", destination := "B", arriveBy := none, departAt := none,
    arrive_by := none, depart_at := none }

/-- A planner proxy state holding a 70 s old cache entry and a 70 s old
tracked upstream call for the `A`/`B` pair. -/
def c1wState : TransitProxy.ProxyState Planner.PlannerData :=
  { cache := [(("planner:A:B:now"), ⟨⟨[]⟩, 0⟩)],
    rateLimitTracker := [(("planner:A:B"), [0])] }

/-- C1 witness: at 70 s the planner cache entry (TTL 75 s) is served tagged
with its observed age of 70 s and the upstream fetch is skipped. -/
theorem c1_witness :
    (Planner.servePlanner 70000 true c1wReq (TransitProxy.Upstream.ok []) none none none
        c1wState).upstreamCalled = false ∧
    (Planner.servePlanner 70000 true c1wReq (TransitProxy.Upstream.ok []) none none none
        c1wState).response = Planner.PlannerResponse.cacheHit ⟨[]⟩ 70 :=
  c1_cache_within_ttl.2 70000 c1wReq (TransitProxy.Upstream.ok []) none none none
    c1wState ⟨⟨[]⟩, 0⟩ (by decide) (by decide) (by decide) (by decide) (by decide)

/-- `maxByCreated` of a non-empty list returns some row. -/
lemma helper_maxByCreated_some (l : List Sched.TripPlan) (h : l ≠ []) :
    ∃ p, Sched.maxByCreated l = some p := by
  cases l with
  | nil => exact absurd rfl h
  | cons p ps =>
    unfold Sched.maxByCreated
    cases Sched.maxByCreated ps with
    | none => exact ⟨p, rfl⟩
    | some m => exact ⟨_, rfl⟩

/-- C4: when the (user, event) pair of the tick's earliest in-window event
already has a TripPlan created within the last 5 minutes, the per-user tick
body inserts no TripPlan row at all — the recency query finds the existing
plan and re-planning is skipped. -/
theorem c4_scheduler_idempotency :
    ∀ (planner : Sched.PlannerCallRequest → Sched.PlannerCallResult) (now : Int)
      (nowClock : Nat) (db : Sched.DB) (s : Sched.UserSettings) (ev : Sched.CalendarEvent)
      (p : Sched.TripPlan),
      Sched.nextEventInWindow db s.user_id now = some ev →
      p ∈ db.trip_plans → p.user_id = s.user_id → p.event_id = ev.id →
      now - 5 * 60 * 1000 ≤ p.created_at →
      (Sched.processUser planner now nowClock db s).db.trip_plans = db.trip_plans := by
  intro planner now nowClock db s ev p hev hp hpu hpe hpc
  cases hq : Sched.isInQuietHours nowClock s.quiet_hours_start s.quiet_hours_end with
  | true => simp [Sched.processUser, hq]
  | false =>
    have hfresh : p ∈ Sched.freshPlans db s.user_id ev.id now := by
      unfold Sched.freshPlans
      apply List.mem_filter.mpr
      refine ⟨hp, ?_⟩
      simp [hpu, hpe]
      omega
    have hne : Sched.freshPlans db s.user_id ev.id now ≠ [] := by
      intro hc
      rw [hc] at hfresh
      exact absurd hfresh (List.not_mem_nil p)
    obtain ⟨q, hqq⟩ := helper_maxByCreated_some _ hne
    have hfind : Sched.findExistingPlan db s.user_id ev.id now = some q := hqq
    simp [Sched.processUser, hq, hev, hfind, Sched.updateTripPlanIfNeeded]

/-- Settings of the C4 witness user. -/
def c4wSettings : Sched.UserSettings :=
  { user_id := "u1", home_point := some (-882300, 401000), notify_lead_minutes := 15,
    quiet_hours_start := 1320, quiet_hours_end := 480, timezone := "America/Chicago" }

/-- The in-window event of the C4 witness run (30 minutes ahead). -/
def c4wEvent : Sched.CalendarEvent :=
  { id := "e1", user_id := "u1", title := "Class", start_time := 1001800000,
    destination_point := some (-882000, 401000) }

/-- A trip plan for the pair created one minute before the witness run. -/
def c4wPlan : Sched.TripPlan :=
  { id := 7, user_id := "u1", event_id := "e1", origin := (401000, -882300),
    destination := (401000, -882000), planned_trip := ⟨1000900000, 1001800000⟩,
    departure_time := 1000900000, arrival_time := 1001800000, created_at := 999940000 }

/-- Database of the C4 witness run. -/
def c4wDB : Sched.DB :=
  { user_settings := [c4wSettings], events := [c4wEvent], trip_plans := [c4wPlan],
    notifications := [], push_tokens := [{ user_id := "u1", token := "tok1" }], next_id := 8 }

/-- C4 witness: a tick at `now = 1000000000` over the fresh-plan database
leaves the trip-plan table unchanged. -/
theorem c4_witness :
    (Sched.processUser (fun _ => Sched.PlannerCallResult.httpError) 1000000000 525
        c4wDB c4wSettings).db.trip_plans = c4wDB.trip_plans :=
  c4_scheduler_idempotency (fun _ => Sched.PlannerCallResult.httpError) 1000000000 525
    c4wDB c4wSettings c4wEvent c4wPlan (by decide) (by decide) (by decide) (by decide)
    (by decide)

/-- Settings of the C2 end-to-end scenario user: notify-lead 15 minutes,
quiet hours 22:00–08:00. -/
def c2Settings : Sched.UserSettings :=
  { user_id := "u1", home_point := some (-882300, 401000), notify_lead_minutes := 15,
    quiet_hours_start := 1320, quiet_hours_end := 480, timezone := "America/Chicago" }

/-- The scenario calendar event with a destination coordinate, starting at
epoch-millisecond 3600000000. -/
def c2Event : Sched.CalendarEvent :=
  { id := "e1", user_id := "u1", title := "Class", start_time := 3600000000,
    destination_point := some (-882000, 401000) }

/-- The scenario database: one user, one event, one valid push token, no
plans and no notifications yet. -/
def c2DB : Sched.DB :=
  { user_settings := [c2Settings], events := [c2Event], trip_plans := [],
    notifications := [], push_tokens := [{ user_id := "u1", token := "tok1" }], next_id := 0 }

/-- The planner stub of the scenario: a successful plan whose bus departs 30
minutes before the event. -/
def c2Planner : Sched.PlannerCallRequest → Sched.PlannerCallResult :=
  fun _ => Sched.PlannerCallResult.resp true [⟨3600000000 - 1800000, 3600000000⟩]

/-- C2 counterexample: a scheduler run at `T = event_start − 15 min` (clock
time 08:45, outside quiet hours) creates no TripPlan row and no Notification
row at all — the events query only considers events starting between
`now + 30 min` and `now + 60 min`, and the event is only 15 minutes away. -/
theorem c2_counterexample :
    (Sched.tick c2Planner (3600000000 - 900000) 525 c2DB).1.trip_plans = [] ∧
    (Sched.tick c2Planner (3600000000 - 900000) 525 c2DB).1.notifications = [] := by
  decide

/-- C2 (amended): with the same user, event, token and planner, a single
scheduler run at `T = event_start − 45 min` — the event then lies inside the
look-ahead window and `T` is within ±2 minutes of departure − lead — creates
exactly one TripPlan row and exactly one Notification row in pending state
for the (user, event) pair; the run at `T = event_start − 15 min` creates
neither. -/
theorem c2_end_to_end :
    ((Sched.tick c2Planner (3600000000 - 2700000) 525 c2DB).1.trip_plans.map
        (fun p => (p.user_id, p.event_id))) = [(("u1"), ("e1"))] ∧
    ((Sched.tick c2Planner (3600000000 - 2700000) 525 c2DB).1.notifications.map
        (fun n => (n.user_id, n.event_id, n.status))) =
      [(("u1"), ("e1"), Sched.NotificationStatus.pending)] ∧
    (Sched.tick c2Planner (3600000000 - 2700000) 525 c2DB).2.2 = 1 := by
  decide

/-- Settings of the C3 counterexample user. -/
def c3Settings : Sched.UserSettings :=
  { user_id := "u1", home_point := some (-882300, 401000), notify_lead_minutes := 15,
    quiet_hours_start := 1320, quiet_hours_end := 480, timezone := "America/Chicago" }

/-- The in-window event of the C3 counterexample (30 minutes ahead). -/
def c3Event : Sched.CalendarEvent :=
  { id := "e1", user_id := "u1", title := "Class", start_time := 1001800000,
    destination_point := some (-882000, 401000) }

/-- An existing current plan, created 60 s before the tick, whose departure
is exactly lead time + 0 away: the notification is due now. -/
def c3Plan : Sched.TripPlan :=
  { id := 7, user_id := "u1", event_id := "e1", origin := (401000, -882300),
    destination := (401000, -882000), planned_trip := ⟨1000900000, 1001800000⟩,
    departure_time := 1000900000, arrival_time := 1001800000, created_at := 999940000 }

/-- Database of the C3 counterexample: fresh plan and a registered token. -/
def c3DB : Sched.DB :=
  { user_settings := [c3Settings], events := [c3Event], trip_plans := [c3Plan],
    notifications := [], push_tokens := [{ user_id := "u1", token := "tok1" }], next_id := 8 }

/-- C3 counterexample: the user is outside quiet hours, the earliest
in-window event has a current plan created within the last 5 minutes, `now`
is exactly at departure − lead (so the ±2-minute check reports due), and a
push token exists — yet the tick creates no Notification row and does not
invoke Push Fanout, because the existing-plan branch only notifies when
`updatedPlan !== existingPlan` and `updateTripPlanIfNeeded` returns the very
same plan. -/
theorem c3_counterexample :
    Sched.shouldSendNotification c3Settings c3Plan 1000000000 = true ∧
    Sched.findExistingPlan c3DB ("u1") ("e1") 1000000000 = some c3Plan ∧
    (Sched.processUser (fun _ => Sched.PlannerCallResult.httpError) 1000000000 525
        c3DB c3Settings).db.notifications = [] ∧
    (Sched.processUser (fun _ => Sched.PlannerCallResult.httpError) 1000000000 525
        c3DB c3Settings).fanoutInvoked = false := by
  decide

/-- C3 (amended): the pending Notification and the Push Fanout invocation
happen exactly in the new-plan branch: for a user outside quiet hours whose
earliest in-window event has no plan from the last 5 minutes, when the
planner call succeeds with at least one trip, `now` is within ±2 minutes of
`departure − lead`, and the user has at least one push token, the tick
appends exactly one Notification row with status pending for the (user,
event) pair and invokes Push Fanout; a plan created by an earlier tick never
produces a notification (see the counterexample). -/
theorem c3_notification_on_new_plan :
    ∀ (planner : Sched.PlannerCallRequest → Sched.PlannerCallResult) (now : Int)
      (nowClock : Nat) (db : Sched.DB) (s : Sched.UserSettings)
      (ev : Sched.CalendarEvent) (t : Sched.PlannerTrip) (rest : List Sched.PlannerTrip),
      Sched.isInQuietHours nowClock s.quiet_hours_start s.quiet_hours_end = false →
      Sched.nextEventInWindow db s.user_id now = some ev →
      Sched.findExistingPlan db s.user_id ev.id now = none →
      planner { origin := Sched.originOf s, destination := Sched.destinationOf ev,
                arrive_by := ev.start_time } = Sched.PlannerCallResult.resp true (t :: rest) →
      Sched.shouldSendNotification s (Sched.newPlanRow db s ev t now) now = true →
      db.push_tokens.filter (fun tok => tok.user_id == s.user_id) ≠ [] →
      (Sched.processUser planner now nowClock db s).fanoutInvoked = true ∧
        ∃ n, (Sched.processUser planner now nowClock db s).db.notifications =
            db.notifications ++ [n] ∧ n.status = Sched.NotificationStatus.pending ∧
            n.user_id = s.user_id ∧ n.event_id = ev.id := by
  intro planner now nowClock db s ev t rest hq hev hfind hplanner hshould htok
  obtain ⟨tk, tks, htks⟩ := List.exists_cons_of_ne_nil htok
  have hcreate : Sched.createTripPlan planner now db s ev =
      (some (Sched.newPlanRow db s ev t now),
        { db with trip_plans := db.trip_plans ++ [Sched.newPlanRow db s ev t now],
                  next_id := db.next_id + 1 }) := by
    unfold Sched.createTripPlan
    rw [hplanner]
    rfl
  constructor
  · simp [Sched.processUser, hq, hev, hfind, hcreate, hshould, Sched.enqueueNotification, htks]
  · refine ⟨Sched.newNotificationRow
        { db with trip_plans := db.trip_plans ++ [Sched.newPlanRow db s ev t now],
                  next_id := db.next_id + 1 } s.user_id (Sched.newPlanRow db s ev t now) ev now,
      ?_, rfl, rfl, rfl⟩
    simp [Sched.processUser, hq, hev, hfind, hcreate, hshould, Sched.enqueueNotification, htks]

/-- C3 witness: the new-plan branch applied to the C2 scenario database at
`T = event_start − 45 min` invokes Push Fanout. -/
theorem c3_witness :
    (Sched.processUser c2Planner (3600000000 - 2700000) 525 c2DB c2Settings).fanoutInvoked =
      true :=
  (c3_notification_on_new_plan c2Planner (3600000000 - 2700000) 525 c2DB c2Settings
    c2Event ⟨3600000000 - 1800000, 3600000000⟩ [] (by decide) (by decide) (by decide)
    (by decide) (by decide) (by decide)).1

/-- Elements surviving `dedupAux` come from the input list. -/
lemma helper_dedupAux_subset (l : List String) :
    ∀ (seen : List String) (x : String), x ∈ Planner.dedupAux l seen → x ∈ l := by
  induction l with
  | nil =>
    intro seen x hx
    simp [Planner.dedupAux] at hx
  | cons y ys ih =>
    intro seen x hx
    unfold Planner.dedupAux at hx
    by_cases hc : seen.contains y = true
    · rw [if_pos hc] at hx
      exact List.mem_cons_of_mem _ (ih seen x hx)
    · rw [if_neg hc] at hx
      rcases List.mem_cons.mp hx with rfl | hx2
      · exact List.mem_cons_self _ _
      · exact List.mem_cons_of_mem _ (ih _ x hx2)

/-- Every route id in the deduplicated route set of a departures body is the
route id of one of its departures. -/
lemma helper_routeIds_mem (dd : Planner.DeparturesData) (r : String)
    (h : r ∈ Planner.routeIds dd) : ∃ dep ∈ dd.departures, dep.route_id = r := by
  unfold Planner.routeIds Planner.dedupKeepFirst at h
  have h2 := helper_dedupAux_subset _ _ _ h
  have h3 := List.mem_filter.mp h2
  obtain ⟨dep, hdep, heq⟩ := List.mem_map.mp h3.1
  exact ⟨dep, hdep, heq⟩

/-- The request of the C6 counterexample run. -/
def c6Req : Planner.TripPlanRequest :=
  { origin := "STOPA", destination := "STOPB", arriveBy := some 1000000000,
    departAt := none, arrive_by := some ("2025"), depart_at := none }

/-- C6 counterexample: an upstream trip-planning call that succeeds with zero
itineraries does not trigger the fallback — the proxy returns success with an
empty trip list (the fallback runs only on a non-ok upstream response). -/
theorem c6_counterexample :
    (Planner.servePlanner 0 true c6Req (TransitProxy.Upstream.ok []) none none none
        ⟨[], []⟩).fallbackInvoked = false ∧
    (Planner.servePlanner 0 true c6Req (TransitProxy.Upstream.ok []) none none none
        ⟨[], []⟩).response = Planner.PlannerResponse.success ⟨[]⟩ := by
  decide

/-- C6 (amended): the fallback is applied exactly when the upstream
trip-planning call fails (non-ok); a zero-itinerary success is returned as
success with an empty trip list.  When both fallback departures fetches
succeed, the fallback returns a single synthesized bus trip departing 15
minutes before the requested arrival time and ending at the requested
arrival time — whether or not a common route exists — flagged as fallback
with the shorter 30 s cache lifetime. -/
theorem c6_fallback :
    (∀ (now : Nat) (req : Planner.TripPlanRequest) (s2 : Nat) (b2 : String)
        (o d b : Option Planner.DeparturesData)
        (st : TransitProxy.ProxyState Planner.PlannerData) (v : List Nat),
      (req.origin == "") = false → (req.destination == "") = false →
      TransitProxy.proxyCheck TransitProxy.PLANNER_CACHE_TTL
          (("planner:") ++ req.origin ++ (":") ++ req.destination)
          (("planner:") ++ req.origin ++ (":") ++ req.destination ++ (":")
            ++ (req.arrive_by.getD (req.depart_at.getD ("now")))) now st =
        TransitProxy.CheckResult.proceed v →
      (Planner.servePlanner now true req (TransitProxy.Upstream.err s2 b2) o d b
          st).fallbackInvoked = true ∧
        (Planner.servePlanner now true req (TransitProxy.Upstream.err s2 b2) o d b
            st).response =
          Planner.fallbackResponse (Planner.attemptFallback req (now : Int) o d b)) ∧
    (∀ (now : Nat) (req : Planner.TripPlanRequest)
        (o d b : Option Planner.DeparturesData)
        (st : TransitProxy.ProxyState Planner.PlannerData) (v : List Nat),
      (req.origin == "") = false → (req.destination == "") = false →
      TransitProxy.proxyCheck TransitProxy.PLANNER_CACHE_TTL
          (("planner:") ++ req.origin ++ (":") ++ req.destination)
          (("planner:") ++ req.origin ++ (":") ++ req.destination ++ (":")
            ++ (req.arrive_by.getD (req.depart_at.getD ("now")))) now st =
        TransitProxy.CheckResult.proceed v →
      (Planner.servePlanner now true req (TransitProxy.Upstream.ok []) o d b
          st).fallbackInvoked = false ∧
        (Planner.servePlanner now true req (TransitProxy.Upstream.ok []) o d b
            st).response = Planner.PlannerResponse.success ⟨[]⟩) ∧
    (∀ (req : Planner.TripPlanRequest) (now arr : Int)
        (oD dD : Planner.DeparturesData) (bu : Option Planner.DeparturesData),
      req.arriveBy = some arr →
      ∃ trip, Planner.attemptFallback req now (some oD) (some dD) bu =
          Planner.FallbackResult.ok [trip] true 30 ∧
        trip.startTime = arr - 15 * 60 * 1000 ∧ trip.endTime = arr ∧
        ∃ leg, trip.legs = [leg] ∧ leg.mode = ("bus") ∧
          leg.startTime = arr - 15 * 60 * 1000 ∧ leg.endTime = arr) := by
  refine ⟨?_, ?_, ?_⟩
  · intro now req s2 b2 o d b st v ho hd hpc
    have hparams : (req.origin == "" || req.destination == "") = false := by
      simp [ho, hd]
    constructor
    · simp [Planner.servePlanner, hparams, hpc]
    · simp [Planner.servePlanner, hparams, hpc]
  · intro now req o d b st v ho hd hpc
    have hparams : (req.origin == "" || req.destination == "") = false := by
      simp [ho, hd]
    constructor
    · simp [Planner.servePlanner, hparams, hpc]
    · simp [Planner.servePlanner, hparams, hpc]
  · intro req now arr oD dD bu harr
    cases hcr : (Planner.routeIds oD).filter (fun r => (Planner.routeIds dD).contains r) with
    | nil =>
      refine ⟨Planner.mkFallbackTrip req (("fallback-bus-") ++ toString now)
          (arr - 15 * 60 * 1000) arr (Planner.pickBusInfo bu ("1")), ?_, rfl, rfl,
        ⟨_, rfl, rfl, rfl, rfl⟩⟩
      unfold Planner.attemptFallback
      rw [harr]
      simp only [Option.getD_some, hcr]
    | cons routeId restRoutes =>
      have hmem : routeId ∈ Planner.routeIds oD := by
        have hmem2 : routeId ∈ (Planner.routeIds oD).filter
            (fun r => (Planner.routeIds dD).contains r) := by
          rw [hcr]
          exact List.mem_cons_self _ _
        exact (List.mem_filter.mp hmem2).1
      obtain ⟨dep, hdep, hdeq⟩ := helper_routeIds_mem oD routeId hmem
      have hfind : ∃ w, oD.departures.find? (fun dd2 => dd2.route_id == routeId) = some w := by
        cases hf : oD.departures.find? (fun dd2 => dd2.route_id == routeId) with
        | some w => exact ⟨w, rfl⟩
        | none =>
          exfalso
          have hnone := List.find?_eq_none.mp hf dep hdep
          simp [hdeq] at hnone
      obtain ⟨w, hw⟩ := hfind
      refine ⟨Planner.mkFallbackTrip req
          (("fallback-") ++ (Planner.pickBusInfo bu routeId).routeId ++ ("-") ++ toString now)
          (arr - 15 * 60 * 1000) arr (Planner.pickBusInfo bu routeId), ?_, rfl, rfl,
        ⟨_, rfl, rfl, rfl, rfl⟩⟩
      unfold Planner.attemptFallback
      rw [harr]
      simp only [Option.getD_some, hcr, hw]

/-- C6 witness: a failed upstream call on an empty proxy state invokes the
fallback and returns its result. -/
theorem c6_witness :
    (Planner.servePlanner 5 true c6Req (TransitProxy.Upstream.err 403 ("x")) none none none
        ⟨[], []⟩).fallbackInvoked = true ∧
    (Planner.servePlanner 5 true c6Req (TransitProxy.Upstream.err 403 ("x")) none none none
        ⟨[], []⟩).response =
      Planner.fallbackResponse (Planner.attemptFallback c6Req ((5 : Nat) : Int) none none none) := by
  have hpc : TransitProxy.proxyCheck TransitProxy.PLANNER_CACHE_TTL
      (("planner:") ++ c6Req.origin ++ (":") ++ c6Req.destination)
      (("planner:") ++ c6Req.origin ++ (":") ++ c6Req.destination ++ (":")
        ++ (c6Req.arrive_by.getD (c6Req.depart_at.getD ("now")))) 5
      (⟨[], []⟩ : TransitProxy.ProxyState Planner.PlannerData) =
      TransitProxy.CheckResult.proceed [] := by decide
  exact c6_fallback.1 5 c6Req 403 ("x") none none none ⟨[], []⟩ []
    (by decide) (by decide) hpc

/-- Rows matching the marked id carry the written status afterwards. -/
lemma helper_markStatus_self (S : Sched.NotificationStatus) (l : List Sched.Notification)
    (i : Nat) (now : Int) :
    ∀ m ∈ Fanout.markStatus S l i now, m.id = i → m.status = S := by
  intro m hm hid
  obtain ⟨x, hx, hfx⟩ := List.mem_map.mp hm
  by_cases hc : (x.id == i) = true
  · rw [if_pos hc] at hfx
    rw [← hfx]
  · rw [if_neg hc] at hfx
    subst hfx
    exact absurd hid (by simpa using hc)

/-- Rows with a different id pass through a mark unchanged. -/
lemma helper_markStatus_ne (S : Sched.NotificationStatus) (l : List Sched.Notification)
    (i : Nat) (now : Int) (m : Sched.Notification) (hm : m ∈ l) (hne : m.id ≠ i) :
    m ∈ Fanout.markStatus S l i now := by
  have hf : (m.id == i) = false := by simpa using hne
  have h2 : (fun n => if n.id == i then
      { n with status := S, sent_at := some now } else n) m = m := by
    simp [hf]
  unfold Fanout.markStatus
  exact h2 ▸ List.mem_map_of_mem _ hm

/-- A mark of another id preserves a per-id status property. -/
lemma helper_markStatus_other (S T : Sched.NotificationStatus) (l : List Sched.Notification)
    (i j : Nat) (now : Int) (hji : j ≠ i)
    (h : ∀ m ∈ l, m.id = i → m.status = T) :
    ∀ m ∈ Fanout.markStatus S l j now, m.id = i → m.status = T := by
  intro m hm hid
  obtain ⟨x, hx, hfx⟩ := List.mem_map.mp hm
  by_cases hc : (x.id == j) = true
  · rw [if_pos hc] at hfx
    exfalso
    have hxj : x.id = j := by simpa using hc
    rw [← hfx] at hid
    simp at hid
    exact hji (hxj.symm.trans hid)
  · rw [if_neg hc] at hfx
    subst hfx
    exact h x hx hid

/-- One fanout step never touches the token table. -/
lemma helper_step_tokens (pok : Sched.Notification → List Sched.PushToken → Bool) (now : Int)
    (db : Sched.DB) (b : Sched.Notification) :
    (Fanout.fanoutStep pok now db b).push_tokens = db.push_tokens := by
  unfold Fanout.fanoutStep
  split
  · rfl
  · split <;> rfl

/-- One fanout step rewrites the notification table with a single
`markStatus` on the processed notification's id. -/
lemma helper_step_shape (pok : Sched.Notification → List Sched.PushToken → Bool) (now : Int)
    (db : Sched.DB) (b : Sched.Notification) :
    ∃ S, (Fanout.fanoutStep pok now db b).notifications =
      Fanout.markStatus S db.notifications b.id now := by
  unfold Fanout.fanoutStep
  split
  · exact ⟨Sched.NotificationStatus.failed, rfl⟩
  · split
    · exact ⟨Sched.NotificationStatus.sent, rfl⟩
    · exact ⟨Sched.NotificationStatus.failed, rfl⟩

/-- The fanout loop never touches the token table. -/
lemma helper_loop_tokens (pok : Sched.Notification → List Sched.PushToken → Bool) (now : Int) :
    ∀ (batch : List Sched.Notification) (db : Sched.DB),
      (Fanout.fanoutLoop pok now batch db).push_tokens = db.push_tokens := by
  intro batch
  induction batch with
  | nil => intro db; rfl
  | cons b rest ih =>
    intro db
    calc (Fanout.fanoutLoop pok now (b :: rest) db).push_tokens
        = (Fanout.fanoutLoop pok now rest (Fanout.fanoutStep pok now db b)).push_tokens := rfl
      _ = (Fanout.fanoutStep pok now db b).push_tokens := ih _
      _ = db.push_tokens := helper_step_tokens pok now db b

/-- Processing notifications whose ids all differ from `i` preserves the
property that every row with id `i` is failed. -/
lemma helper_loop_preserves_failed
    (pok : Sched.Notification → List Sched.PushToken → Bool) (now : Int) (i : Nat) :
    ∀ (batch : List Sched.Notification) (db : Sched.DB),
      (∀ b ∈ batch, b.id ≠ i) →
      (∀ m ∈ db.notifications, m.id = i → m.status = Sched.NotificationStatus.failed) →
      ∀ m ∈ (Fanout.fanoutLoop pok now batch db).notifications, m.id = i →
        m.status = Sched.NotificationStatus.failed := by
  intro batch
  induction batch with
  | nil => intro db _ hP; exact hP
  | cons b rest ih =>
    intro db hb hP
    have hbne : b.id ≠ i := hb b (List.mem_cons_self _ _)
    obtain ⟨S, hS⟩ := helper_step_shape pok now db b
    have hP2 : ∀ m ∈ (Fanout.fanoutStep pok now db b).notifications, m.id = i →
        m.status = Sched.NotificationStatus.failed := by
      rw [hS]
      exact helper_markStatus_other S _ db.notifications i b.id now hbne hP
    exact ih (Fanout.fanoutStep pok now db b)
      (fun x hx => hb x (List.mem_cons_of_mem _ hx)) hP2

/-- A row whose id is processed by no batch element survives the loop
unchanged. -/
lemma helper_loop_mem (pok : Sched.Notification → List Sched.PushToken → Bool) (now : Int)
    (n : Sched.Notification) :
    ∀ (batch : List Sched.Notification) (db : Sched.DB),
      (∀ b ∈ batch, b.id ≠ n.id) → n ∈ db.notifications →
      n ∈ (Fanout.fanoutLoop pok now batch db).notifications := by
  intro batch
  induction batch with
  | nil => intro db _ hn; exact hn
  | cons b rest ih =>
    intro db hb hn
    obtain ⟨S, hS⟩ := helper_step_shape pok now db b
    have hn2 : n ∈ (Fanout.fanoutStep pok now db b).notifications := by
      rw [hS]
      exact helper_markStatus_ne S db.notifications b.id now n hn
        (fun hc => hb b (List.mem_cons_self _ _) (hc ▸ rfl))
    exact ih _ (fun x hx => hb x (List.mem_cons_of_mem _ hx)) hn2

/-- The loop over a split batch runs the two halves in sequence. -/
lemma helper_loop_append (pok : Sched.Notification → List Sched.PushToken → Bool) (now : Int) :
    ∀ (l1 l2 : List Sched.Notification) (db : Sched.DB),
      Fanout.fanoutLoop pok now (l1 ++ l2) db =
        Fanout.fanoutLoop pok now l2 (Fanout.fanoutLoop pok now l1 db) := by
  intro l1
  induction l1 with
  | nil => intro l2 db; rfl
  | cons b rest ih => intro l2 db; exact ih l2 _

/-- Stable insertion permutes to a cons. -/
lemma helper_insertBySched_perm (x : Sched.Notification) :
    ∀ (l : List Sched.Notification), (Fanout.insertBySched x l).Perm (x :: l) := by
  intro l
  induction l with
  | nil => exact List.Perm.refl _
  | cons y ys ih =>
    unfold Fanout.insertBySched
    by_cases hc : decide (y.scheduled_for < x.scheduled_for) = true
    · rw [if_pos hc]
      exact (List.Perm.cons y ih).trans (List.Perm.swap x y ys)
    · rw [if_neg hc]

/-- The fanout sort is a permutation. -/
lemma helper_sortBySched_perm :
    ∀ (l : List Sched.Notification), (Fanout.sortBySched l).Perm l := by
  intro l
  induction l with
  | nil => exact List.Perm.refl _
  | cons x xs ih =>
    exact (helper_insertBySched_perm x (Fanout.sortBySched xs)).trans (List.Perm.cons x ih)

/-- Distinct row ids survive into the selected batch. -/
lemma helper_selectBatch_ids_nodup (db : Sched.DB) (now : Int)
    (h : (db.notifications.map (fun m => m.id)).Nodup) :
    ((Fanout.selectBatch db now).map (fun m => m.id)).Nodup := by
  have h1 : ((db.notifications.filter (fun n =>
      decide (n.status = Sched.NotificationStatus.pending)
        && decide (n.scheduled_for ≤ now))).map (fun m => m.id)).Nodup :=
    h.sublist ((List.filter_sublist _).map _)
  have h2 : ((Fanout.sortBySched (db.notifications.filter (fun n =>
      decide (n.status = Sched.NotificationStatus.pending)
        && decide (n.scheduled_for ≤ now)))).map (fun m => m.id)).Nodup :=
    ((helper_sortBySched_perm _).map _).nodup_iff.mpr h1
  exact h2.sublist ((List.take_sublist _ _).map _)

/-- Every selected batch element is a pending, due row of the table. -/
lemma helper_selectBatch_mem (db : Sched.DB) (now : Int) (b : Sched.Notification)
    (hb : b ∈ Fanout.selectBatch db now) :
    b ∈ db.notifications ∧ b.status = Sched.NotificationStatus.pending ∧
      b.scheduled_for ≤ now := by
  unfold Fanout.selectBatch at hb
  have h1 := List.mem_of_mem_take hb
  have h2 := (helper_sortBySched_perm _).mem_iff.mp h1
  have h3 := List.mem_filter.mp h2
  refine ⟨h3.1, ?_, ?_⟩
  · have := h3.2
    simp at this
    exact this.1
  · have := h3.2
    simp at this
    exact this.2

/-- C9 (amended): assuming distinct notification row ids, (1) every pending,
due notification that is selected into the run's batch (the 50 oldest by
`scheduled_for`) and whose user has zero registered push tokens is
transitioned to `failed` by the run — in particular it neither stays
`pending` nor becomes `sent`; and (2) a fanout run never touches a
non-pending row, so subsequent runs never reprocess a failed notification
(the query selects only `status = 'pending'`).  A pending due row beyond the
50-row batch is not processed by that run (see the counterexample). -/
theorem c9_fanout_zero_tokens :
    (∀ (pok : Sched.Notification → List Sched.PushToken → Bool) (now : Int)
        (db : Sched.DB) (n : Sched.Notification),
      (db.notifications.map (fun m => m.id)).Nodup →
      n ∈ Fanout.selectBatch db now →
      db.push_tokens.filter (fun t => t.user_id == n.user_id) = [] →
      ∀ m ∈ (Fanout.fanoutRun pok now db).notifications, m.id = n.id →
        m.status = Sched.NotificationStatus.failed) ∧
    (∀ (pok : Sched.Notification → List Sched.PushToken → Bool) (now : Int)
        (db : Sched.DB) (n : Sched.Notification),
      (db.notifications.map (fun m => m.id)).Nodup →
      n ∈ db.notifications → n.status ≠ Sched.NotificationStatus.pending →
      n ∈ (Fanout.fanoutRun pok now db).notifications) := by
  constructor
  · intro pok now db n hnodup hb htok
    have hbatchnodup := helper_selectBatch_ids_nodup db now hnodup
    obtain ⟨pre, post, hsplit⟩ := List.append_of_mem hb
    have hloop : Fanout.fanoutRun pok now db =
        Fanout.fanoutLoop pok now (n :: post) (Fanout.fanoutLoop pok now pre db) := by
      unfold Fanout.fanoutRun
      rw [hsplit, helper_loop_append]
    have htok1 : (Fanout.fanoutLoop pok now pre db).push_tokens.filter
        (fun t => t.user_id == n.user_id) = [] := by
      rw [helper_loop_tokens]
      exact htok
    have hstep : (Fanout.fanoutStep pok now (Fanout.fanoutLoop pok now pre db) n).notifications =
        Fanout.markStatus Sched.NotificationStatus.failed
          (Fanout.fanoutLoop pok now pre db).notifications n.id now := by
      unfold Fanout.fanoutStep
      rw [htok1]
      rfl
    have hP : ∀ m ∈ (Fanout.fanoutStep pok now (Fanout.fanoutLoop pok now pre db)
        n).notifications, m.id = n.id → m.status = Sched.NotificationStatus.failed := by
      rw [hstep]
      exact helper_markStatus_self _ _ _ _
    have hpost : ∀ b2 ∈ post, b2.id ≠ n.id := by
      rw [hsplit] at hbatchnodup
      simp only [List.map_append, List.map_cons] at hbatchnodup
      have hmid := (List.nodup_append.mp hbatchnodup).2.1
      have hnotin : n.id ∉ post.map (fun m => m.id) := (List.nodup_cons.mp hmid).1
      intro b2 hb2 heq
      exact hnotin (heq ▸ List.mem_map_of_mem _ hb2)
    rw [hloop]
    exact helper_loop_preserves_failed pok now n.id post _ hpost hP
  · intro pok now db n hnodup hn hst
    have hbatch : ∀ b ∈ Fanout.selectBatch db now, b.id ≠ n.id := by
      intro b hb heq
      obtain ⟨hbmem, hbpend, _⟩ := helper_selectBatch_mem db now b hb
      have hbn : b = n := List.inj_on_of_nodup_map hnodup hbmem hn heq
      rw [hbn] at hbpend
      exact hst hbpend
    unfold Fanout.fanoutRun
    exact helper_loop_mem pok now n _ db hbatch hn

/-- A pending notification row of the C9 counterexample database. -/
def c9Notif (i : Nat) : Sched.Notification :=
  { id := i, user_id := "u1", trip_plan_id := 0, event_id := "e1", title := "t",
    body := "b", ntype := "departure_reminder",
    status := Sched.NotificationStatus.pending, scheduled_for := (i : Int), sent_at := none }

/-- 51 pending, due notifications for a user with zero push tokens. -/
def c9DB : Sched.DB :=
  { user_settings := [], events := [], trip_plans := [],
    notifications := (List.range 51).map c9Notif, push_tokens := [], next_id := 100 }

set_option maxRecDepth 10000 in
/-- C9 counterexample: with 51 pending due notifications (zero tokens), a
single fanout run fails the 50 oldest but leaves the newest (id 50) in
`pending` — contradicting that a run transitions every such notification to
`failed`. -/
theorem c9_counterexample :
    ((Fanout.fanoutRun (fun _ _ => true) 100 c9DB).notifications.find?
        (fun m => m.id == 50)).map (fun m => m.status) =
      some Sched.NotificationStatus.pending ∧
    ((Fanout.fanoutRun (fun _ _ => true) 100 c9DB).notifications.find?
        (fun m => m.id == 0)).map (fun m => m.status) =
      some Sched.NotificationStatus.failed := by
  decide

/-- The single pending notification of the C9 witness database. -/
def c9wRow : Sched.Notification := c9Notif 5

/-- The C9 witness database: one due pending notification, no tokens. -/
def c9wDB : Sched.DB :=
  { user_settings := [], events := [], trip_plans := [],
    notifications := [c9wRow], push_tokens := [], next_id := 100 }

/-- C9 witness: the theorem applied to a one-row database shows the failed
row produced by the run has status `failed`. -/
theorem c9_witness :
    ({ c9wRow with
        status := Sched.NotificationStatus.failed,
        sent_at := some 100 } : Sched.Notification).status =
      Sched.NotificationStatus.failed :=
  c9_fanout_zero_tokens.1 (fun _ _ => true) 100 c9wDB c9wRow (by decide) (by decide)
    (by decide)
    { c9wRow with status := Sched.NotificationStatus.failed, sent_at := some 100 }
    (by decide) (by decide)
